import Mathlib

/-!
Verification of the constant operators (`constantScalar`, `constantTensor`)
of the gorgonia `Op` contract (`op.go`), via a shallow embedding in Lean.

The `Op` interface methods of the two constant operators are translated
one-to-one from the source.  The `Scalar`, `Tensor`, `Node` and `Dtype`
types live outside the excerpted source (in the external value / graph
layers), so they are modelled from the spec, as noted on each definition.
-/

namespace Gorgonia

/-- Modelled from the spec: the element-type code carried by every value
(`Dtype` of the external `tensor/types` package, a byte-sized enum).
Only its identity and its one-byte binary encoding matter here. -/
abbrev Dtype := Fin 256

/-- Modelled from the spec: a `Scalar` value of the external Value
capability set: it knows its own element type `t` and carries a payload
`v` (the value bits, modelled as an integer).  Two scalars are
bit-identical exactly when they are equal as structures. -/
structure Scalar where
  t : Dtype
  v : Int
deriving DecidableEq

/-- Modelled from the spec: a `Tensor` value of the external Value
capability set: an N-dimensional array knowing its element type and
shape.  `storageId` models the identity of the underlying backing
storage (the pointer inside the Go interface value); it is what "same
underlying storage" means.  Two tensors are bit-identical when type,
shape and data agree (storage identity is where they live, not what
they contain). -/
structure Tensor where
  storageId : Nat
  t : Dtype
  shape : List Nat
  data : List Int
deriving DecidableEq

/-- `Shape()` of a tensor (delegates to the external tensor). -/
def Tensor.shapeOf (x : Tensor) : List Nat := x.shape

/-- Modelled from the spec: a graph `Node` is external to the core; the
constant operators never inspect the nodes passed to them, so only its
existence matters. -/
structure Node where
  id : Nat
deriving DecidableEq

/-- A runtime `Value`: either a `Scalar` or a `Tensor` (the Go `Value`
interface). -/
inductive Value where
  | scalar (s : Scalar)
  | tensor (x : Tensor)
deriving DecidableEq

/-- The underlying storage identity of a value: tensors expose the
identity of their backing array; scalars are plain copies and have
none. -/
def Value.storage : Value → Option Nat
  | Value.scalar _ => none
  | Value.tensor x => some x.storageId

/-- The error taxonomy of the spec (§7); `Option GError` embeds Go's
`error` result, `none` being Go's `nil`. -/
inductive GError where
  | arityMismatch
  | typeMismatch
  | shapeMismatch
  | nonDifferentiable
deriving DecidableEq

/-- Modelled from the spec: `types.ScalarShape()` of the external shape
package, the fixed 0-dimensional shape of a scalar. -/
def scalarShape : List Nat := []

/-- ASCII bytes of a string (what `fmt.Fprintf` writes into the digest). -/
def strBytes (s : String) : List Nat := s.toList.map Char.toNat

/-- The 32-bit FNV-1a offset basis (`fnv.New32a()`'s fresh state). -/
def fnvOffsetBasis : Nat := 2166136261

/-- Feed bytes into a streaming 32-bit FNV-1a digest state
(`hash.Hash32.Write`): for each byte, xor then multiply by the FNV
prime, modulo 2^32. -/
def fnvFeed (h : Nat) (bs : List Nat) : Nat :=
  bs.foldl (fun h b => ((h ^^^ b) * 16777619) % 4294967296) h

/-- Modelled from the spec: the textual representation `fmt` produces
for a scalar value (`%v`), its decimal form. -/
def formatScalar (s : Scalar) : String := toString s.v

/-- Modelled from the spec: the textual representation `fmt` produces
for a `Dtype` (`%v`). -/
def formatDtype (d : Dtype) : String := toString d.val

/-- Modelled from the spec: the textual representation `fmt` produces
for a tensor (`%v`): its contents (shape layout and data), never the
storage address. -/
def formatTensor (x : Tensor) : String := toString x.shape ++ toString x.data

/-- `constantScalar`: a zero-input operator wrapping an immutable
`Scalar` literal (`op.go` line 123). -/
structure constantScalar where
  v : Scalar
deriving DecidableEq

/-- `constantTensor`: a zero-input operator wrapping an immutable
`Tensor` literal (`op.go` line 158). -/
structure constantTensor where
  v : Tensor
deriving DecidableEq

namespace constantScalar

/-- `func (c constantScalar) Type() Type { return c.v.Type() }` -/
def typeOf (c : constantScalar) : Dtype := c.v.t

/-- `func (c constantScalar) returnsPtr() bool { return false }` -/
def returnsPtr (_ : constantScalar) : Bool := false

/-- `func (c constantScalar) callsExtern() bool { return false }` -/
def callsExtern (_ : constantScalar) : Bool := false

/-- `func (c constantScalar) overwriteInput() int { return -1 }` -/
def overwriteInput (_ : constantScalar) : Int := -1

/-- `func (c constantScalar) DiffWRT(i int) []bool { return nil }` -/
def DiffWRT (_ : constantScalar) (_ : Int) : List Bool := []

/-- `func (c constantScalar) SymDiff(Nodes, *Node, *Node) (Nodes, error) { return nil, nil }` -/
def SymDiff (_ : constantScalar) (_ : List Node) (_ _ : Node) :
    List Node × Option GError := ([], none)

/-- `func (c constantScalar) inferShape(Type, ...*Node) (types.Shape, error)`:
`return types.ScalarShape(), nil`. -/
def inferShape (_ : constantScalar) (_ : Dtype) (_ : List Node) :
    List Nat × Option GError := (scalarShape, none)

/-- `func (c constantScalar) Do(...Value) (Value, error) { return c.v, nil }` -/
def Do (c : constantScalar) (_ : List Value) : Value × Option GError :=
  (Value.scalar c.v, none)

/-- The byte sequence `WriteHash` writes: `"const "`, then the
little-endian binary encoding of the value's `Dtype` (one byte), then
`"of %v"` of the value. -/
def writeHashBytes (c : constantScalar) : List Nat :=
  strBytes ("const ") ++ [c.v.t.val] ++ strBytes ("of ") ++ strBytes (formatScalar c.v)

/-- `func (c constantScalar) WriteHash(h hash.Hash)`: streams
`writeHashBytes` into the digest state. -/
def WriteHash (c : constantScalar) (h : Nat) : Nat :=
  fnvFeed h (writeHashBytes c)

/-- `func (c constantScalar) Hashcode() uint32`: a fresh 32-bit FNV-1a
digest, `WriteHash` into it, then `Sum32`. -/
def Hashcode (c : constantScalar) : Nat :=
  WriteHash c fnvOffsetBasis

/-- `func (c constantScalar) isconstant() bool { return true }` -/
def isconstant (_ : constantScalar) : Bool := true

/-- `func (c constantScalar) Value() Value { return c.v }` -/
def valueOf (c : constantScalar) : Value := Value.scalar c.v

end constantScalar

namespace constantTensor

/-- `func (c constantTensor) Type() Type { return c.v.Type() }` -/
def typeOf (c : constantTensor) : Dtype := c.v.t

/-- `func (c constantTensor) returnsPtr() bool { return true }` -/
def returnsPtr (_ : constantTensor) : Bool := true

/-- `func (c constantTensor) overwriteInput() int { return -1 }` -/
def overwriteInput (_ : constantTensor) : Int := -1

/-- `func (c constantTensor) callsExtern() bool { return false }` -/
def callsExtern (_ : constantTensor) : Bool := false

/-- `func (c constantTensor) DiffWRT(i int) []bool { return nil }` -/
def DiffWRT (_ : constantTensor) (_ : Int) : List Bool := []

/-- `func (c constantTensor) SymDiff(Nodes, *Node, *Node) (Nodes, error) { return nil, nil }` -/
def SymDiff (_ : constantTensor) (_ : List Node) (_ _ : Node) :
    List Node × Option GError := ([], none)

/-- `func (c constantTensor) inferShape(Type, ...*Node) (types.Shape, error)`:
`return c.v.Shape(), nil`. -/
def inferShape (c : constantTensor) (_ : Dtype) (_ : List Node) :
    List Nat × Option GError := (c.v.shapeOf, none)

/-- `func (c constantTensor) Do(...Value) (Value, error) { return c.v, nil }` -/
def Do (c : constantTensor) (_ : List Value) : Value × Option GError :=
  (Value.tensor c.v, none)

/-- The byte sequence `WriteHash` writes: `"const %v"` of the operator's
`Type`, then `"%v"` of the wrapped tensor. -/
def writeHashBytes (c : constantTensor) : List Nat :=
  strBytes ("const " ++ formatDtype (typeOf c)) ++ strBytes (formatTensor c.v)

/-- `func (c constantTensor) WriteHash(h hash.Hash)`: streams
`writeHashBytes` into the digest state. -/
def WriteHash (c : constantTensor) (h : Nat) : Nat :=
  fnvFeed h (writeHashBytes c)

/-- `func (c constantTensor) Hashcode() uint32`: a fresh 32-bit FNV-1a
digest, `WriteHash` into it, then `Sum32`. -/
def Hashcode (c : constantTensor) : Nat :=
  WriteHash c fnvOffsetBasis

/-- `func (c constantTensor) isconstant() bool { return true }` -/
def isconstant (_ : constantTensor) : Bool := true

/-- `func (c constantTensor) Value() Value { return c.v }` -/
def valueOf (c : constantTensor) : Value := Value.tensor c.v

end constantTensor

/-- A family of 300 constant-scalar operators over 300 distinct
(type, value) pairs, used to check the hash scheme for collisions. -/
def scalarHashFamily : List Nat :=
  (List.range 300).map
    (fun k => constantScalar.Hashcode ⟨⟨⟨k % 4, by omega⟩, Int.ofNat k⟩⟩)

/-- C1: wrapping a scalar value `v` in `constantScalar` and calling `Do`
with no arguments returns the value `v` (and no error); likewise a
tensor wrapped in `constantTensor` is returned as-is by `Do`. -/
theorem constant_round_trip :
    (∀ s : Scalar, constantScalar.Do ⟨s⟩ [] = (Value.scalar s, none)) ∧
    (∀ x : Tensor, constantTensor.Do ⟨x⟩ [] = (Value.tensor x, none)) := by
  exact ⟨fun _ => rfl, fun _ => rfl⟩

/-- C2: both constant operators report no differentiable inputs
(`DiffWRT` is empty for every argument) and `SymDiff` returns an empty
gradient list with no error; consequently `DiffWRT`/`SymDiff` are
mutually consistent: no index is marked differentiable without a
gradient (vacuously), and no gradient is fabricated for any index. -/
theorem constant_nondiff_symdiff_consistent
    (s : Scalar) (x : Tensor) (n m : Int) (ins : List Node) (out grad : Node) :
    constantScalar.DiffWRT ⟨s⟩ n = [] ∧
    constantTensor.DiffWRT ⟨x⟩ m = [] ∧
    constantScalar.SymDiff ⟨s⟩ ins out grad = ([], none) ∧
    constantTensor.SymDiff ⟨x⟩ ins out grad = ([], none) ∧
    (∀ i : Nat, (constantScalar.DiffWRT ⟨s⟩ n).getD i false = true →
      ((constantScalar.SymDiff ⟨s⟩ ins out grad).1.get? i).isSome) ∧
    (∀ i : Nat, (constantScalar.SymDiff ⟨s⟩ ins out grad).1.get? i = none) ∧
    (∀ i : Nat, (constantTensor.DiffWRT ⟨x⟩ m).getD i false = true →
      ((constantTensor.SymDiff ⟨x⟩ ins out grad).1.get? i).isSome) ∧
    (∀ i : Nat, (constantTensor.SymDiff ⟨x⟩ ins out grad).1.get? i = none) := by
  refine ⟨rfl, rfl, rfl, rfl, ?_, ?_, ?_, ?_⟩
  · intro i h
    simp [constantScalar.DiffWRT] at h
  · intro i
    simp [constantScalar.SymDiff]
  · intro i h
    simp [constantTensor.DiffWRT] at h
  · intro i
    simp [constantTensor.SymDiff]

/-- Witness for C2 at concrete inputs. -/
theorem constant_nondiff_symdiff_consistent_witness :
    constantScalar.DiffWRT ⟨⟨0, 0⟩⟩ 0 = [] :=
  (constant_nondiff_symdiff_consistent ⟨0, 0⟩ ⟨0, 0, [], []⟩ 0 0 [] ⟨0⟩ ⟨0⟩).1

/-- C3: `constantTensor.returnsPtr` is `true` and every call to
`constantTensor.Do` returns the identical wrapped tensor (not a copy),
so any two calls share the same underlying storage identity;
`constantScalar.returnsPtr` is `false`. -/
theorem constant_aliasing_contract (s : Scalar) (x : Tensor) :
    constantTensor.returnsPtr ⟨x⟩ = true ∧
    constantScalar.returnsPtr ⟨s⟩ = false ∧
    (constantTensor.Do ⟨x⟩ []).1 = Value.tensor x ∧
    (constantTensor.Do ⟨x⟩ []).1.storage = some x.storageId ∧
    (constantTensor.Do ⟨x⟩ []).1.storage = (constantTensor.Do ⟨x⟩ []).1.storage := by
  exact ⟨rfl, rfl, rfl, rfl, rfl⟩

/-- C4 counterexample: called with a non-empty argument list, `Do` does
NOT return an `ArityMismatch` error; it ignores the arguments and
returns the wrapped value with a nil error, for both constant
operators. -/
theorem do_arity_counterexample :
    constantScalar.Do ⟨⟨0, 5⟩⟩ [Value.scalar ⟨0, 1⟩] = (Value.scalar ⟨0, 5⟩, none) ∧
    (constantScalar.Do ⟨⟨0, 5⟩⟩ [Value.scalar ⟨0, 1⟩]).2 ≠ some GError.arityMismatch ∧
    constantTensor.Do ⟨⟨0, 0, [2], [1, 2]⟩⟩ [Value.scalar ⟨0, 1⟩] =
      (Value.tensor ⟨0, 0, [2], [1, 2]⟩, none) ∧
    (constantTensor.Do ⟨⟨0, 0, [2], [1, 2]⟩⟩ [Value.scalar ⟨0, 1⟩]).2 ≠
      some GError.arityMismatch := by
  refine ⟨rfl, ?_, rfl, ?_⟩ <;> simp [constantScalar.Do, constantTensor.Do]

/-- C4 amended: `Do` ignores its arguments entirely: for every argument
list (empty or not) both constant operators return the wrapped value
with no error, so no `ArityMismatch` is ever produced. -/
theorem do_ignores_arguments (s : Scalar) (x : Tensor) (args : List Value) :
    constantScalar.Do ⟨s⟩ args = (Value.scalar s, none) ∧
    constantTensor.Do ⟨x⟩ args = (Value.tensor x, none) := by
  exact ⟨rfl, rfl⟩

set_option maxRecDepth 4000 in
/-- C5: two `constantScalar` operators wrapping bit-identical scalar
values of the same type hash identically, and likewise two
`constantTensor` operators wrapping bit-identical tensors (equal type,
shape and data — even when held in different storage); moreover, over a
family of 300 distinct (type, value) pairs the hash codes are pairwise
distinct (no collisions). -/
theorem hash_consistency :
    (∀ s1 s2 : Scalar, s1.t = s2.t → s1.v = s2.v →
      constantScalar.Hashcode ⟨s1⟩ = constantScalar.Hashcode ⟨s2⟩) ∧
    (∀ x1 x2 : Tensor, x1.t = x2.t → x1.shape = x2.shape → x1.data = x2.data →
      constantTensor.Hashcode ⟨x1⟩ = constantTensor.Hashcode ⟨x2⟩) ∧
    scalarHashFamily.Nodup := by
  refine ⟨?_, ?_, ?_⟩
  · intro s1 s2 ht hv
    have : s1 = s2 := by
      cases s1; cases s2; simp_all
    rw [this]
  · intro x1 x2 ht hs hd
    simp only [constantTensor.Hashcode, constantTensor.WriteHash,
      constantTensor.writeHashBytes, constantTensor.typeOf, formatTensor, ht, hs, hd]
  · decide

/-- Witness for C5 at concrete inputs. -/
theorem hash_consistency_witness :
    constantScalar.Hashcode ⟨⟨0, 7⟩⟩ = constantScalar.Hashcode ⟨⟨0, 7⟩⟩ ∧
    constantTensor.Hashcode ⟨⟨0, 1, [2], [3, 4]⟩⟩ =
      constantTensor.Hashcode ⟨⟨99, 1, [2], [3, 4]⟩⟩ :=
  ⟨hash_consistency.1 ⟨0, 7⟩ ⟨0, 7⟩ rfl rfl,
   hash_consistency.2.1 ⟨0, 1, [2], [3, 4]⟩ ⟨99, 1, [2], [3, 4]⟩ rfl rfl rfl⟩

/-- C6 counterexample: `DiffWRT 1` returns the empty sequence (Go
`nil`) for both constant operators, so its length is 0, not the
supplied `inputCount = 1`: the claimed length equality fails for every
nonzero `inputCount`. -/
theorem diffwrt_length_counterexample :
    (constantScalar.DiffWRT ⟨⟨0, 0⟩⟩ 1).length ≠ 1 ∧
    (constantTensor.DiffWRT ⟨⟨0, 0, [], []⟩⟩ 1).length ≠ 1 := by
  decide

/-- C6 amended: `DiffWRT` of the constant operators always returns the
empty sequence regardless of the supplied `inputCount`; its length
equals `inputCount` exactly in the zero-input case (`inputCount = 0`),
the only count these zero-input operators are ever called with. -/
theorem diffwrt_always_empty (s : Scalar) (x : Tensor) (n : Int) :
    constantScalar.DiffWRT ⟨s⟩ n = [] ∧
    constantTensor.DiffWRT ⟨x⟩ n = [] ∧
    (constantScalar.DiffWRT ⟨s⟩ 0).length = 0 ∧
    (constantTensor.DiffWRT ⟨x⟩ 0).length = 0 := by
  exact ⟨rfl, rfl, rfl, rfl⟩

/-- C7: for every type hint and every input-node list,
`constantScalar.inferShape` returns the fixed 0-dimensional scalar
shape and no error, `constantTensor.inferShape` returns the wrapped
tensor's own shape and no error, and both results are independent of
all supplied arguments (so repeated calls agree). -/
theorem constant_infer_shape
    (s : Scalar) (x : Tensor) (ty ty2 : Dtype) (ns ns2 : List Node) :
    constantScalar.inferShape ⟨s⟩ ty ns = (scalarShape, none) ∧
    scalarShape = [] ∧
    constantTensor.inferShape ⟨x⟩ ty ns = (x.shape, none) ∧
    constantScalar.inferShape ⟨s⟩ ty ns = constantScalar.inferShape ⟨s⟩ ty2 ns2 ∧
    constantTensor.inferShape ⟨x⟩ ty ns = constantTensor.inferShape ⟨x⟩ ty2 ns2 := by
  exact ⟨rfl, rfl, rfl, rfl, rfl⟩

/-- C8: `Hashcode` equals running `WriteHash` on a fresh 32-bit FNV-1a
digest and finalizing it, for both constant operators; consequently two
operators whose `WriteHash` writes identical byte sequences return
equal codes. -/
theorem hashcode_wraps_writehash (s : Scalar) (x : Tensor) :
    constantScalar.Hashcode ⟨s⟩ = constantScalar.WriteHash ⟨s⟩ fnvOffsetBasis ∧
    constantTensor.Hashcode ⟨x⟩ = constantTensor.WriteHash ⟨x⟩ fnvOffsetBasis ∧
    (∀ s2 : Scalar,
      constantScalar.writeHashBytes ⟨s⟩ = constantScalar.writeHashBytes ⟨s2⟩ →
      constantScalar.Hashcode ⟨s⟩ = constantScalar.Hashcode ⟨s2⟩) ∧
    (∀ x2 : Tensor,
      constantTensor.writeHashBytes ⟨x⟩ = constantTensor.writeHashBytes ⟨x2⟩ →
      constantTensor.Hashcode ⟨x⟩ = constantTensor.Hashcode ⟨x2⟩) := by
  refine ⟨rfl, rfl, ?_, ?_⟩
  · intro s2 h
    simp only [constantScalar.Hashcode, constantScalar.WriteHash, h]
  · intro x2 h
    simp only [constantTensor.Hashcode, constantTensor.WriteHash, h]

/-- Witness for C8 at concrete inputs. -/
theorem hashcode_wraps_writehash_witness :
    constantScalar.Hashcode ⟨⟨0, 3⟩⟩ = constantScalar.WriteHash ⟨⟨0, 3⟩⟩ fnvOffsetBasis ∧
    constantScalar.Hashcode ⟨⟨0, 3⟩⟩ = constantScalar.Hashcode ⟨⟨0, 3⟩⟩ :=
  ⟨(hashcode_wraps_writehash ⟨0, 3⟩ ⟨0, 0, [], []⟩).1,
   (hashcode_wraps_writehash ⟨0, 3⟩ ⟨0, 0, [], []⟩).2.2.1 ⟨0, 3⟩ rfl⟩

/-- C9: both constant operators report the no-overwrite sentinel `-1`
from `overwriteInput` and `false` from `callsExtern`, for every wrapped
value. -/
theorem constant_analysis_flags (s : Scalar) (x : Tensor) :
    constantScalar.overwriteInput ⟨s⟩ = -1 ∧
    constantTensor.overwriteInput ⟨x⟩ = -1 ∧
    constantScalar.callsExtern ⟨s⟩ = false ∧
    constantTensor.callsExtern ⟨x⟩ = false := by
  exact ⟨rfl, rfl, rfl, rfl⟩

/-- C10: both constant operators answer `isconstant` with `true`, and
`Value()` returns exactly the wrapped value, which is the same value
`Do` returns when called with no arguments. -/
theorem constant_accessor_agreement (s : Scalar) (x : Tensor) :
    constantScalar.isconstant ⟨s⟩ = true ∧
    constantTensor.isconstant ⟨x⟩ = true ∧
    constantScalar.valueOf ⟨s⟩ = Value.scalar s ∧
    constantScalar.valueOf ⟨s⟩ = (constantScalar.Do ⟨s⟩ []).1 ∧
    constantTensor.valueOf ⟨x⟩ = Value.tensor x ∧
    constantTensor.valueOf ⟨x⟩ = (constantTensor.Do ⟨x⟩ []).1 := by
  exact ⟨rfl, rfl, rfl, rfl, rfl, rfl⟩

end Gorgonia
